import Mathlib

/-!
Verification of the structured request-logging and observability middleware
of the `blazing` Pokemon API.

The development shallowly embeds the logging subsystem:

* `blazing/logging/middleware.py` — `RequestLoggingMiddleware.dispatch` and
  `DatabaseQueryLoggingMiddleware.dispatch`, modelled as transformers of
  per-request handlers over an explicit request state;
* `blazing/logging/logging_config.py` — `JSONFormatter.format`,
  `ColoredConsoleFormatter.format` and `setup_logging`, modelled over an
  explicit root-logger state;
* `blazing/main.py` — the middleware stack wiring (`app.add_middleware`).

Nondeterministic inputs of the original (the generated UUID, wall-clock
elapsed time, the formatter timestamp) are passed as explicit parameters.
Durations are modelled as exact rationals; Python floats are a subset of
these, so no behaviour relevant to the stated properties is lost.
-/

/-- Severity levels of the host logging facility,
ordered DEBUG < INFO < WARNING < ERROR < CRITICAL. -/
inductive Level where
  | debug
  | info
  | warning
  | error
  | critical
deriving DecidableEq, Repr

/-- Exception detail as observed by the middleware (`str(e)`); re-raising
propagates the very same value. -/
abbrev Exn := String

/-- A structured log record as emitted by the middleware layer: severity,
message, and the open set of `extra` context fields used at the call sites in
`middleware.py` (absent fields are `none`). `exc_info` records whether the
call passed `exc_info=True`. -/
structure MwLog where
  level : Level
  message : String
  request_id : Option String := none
  method : Option String := none
  path : Option String := none
  client_ip : Option String := none
  user_agent : Option String := none
  status_code : Option Nat := none
  duration_ms : Option ℚ := none
  query_count : Option Nat := none
  exc_info : Bool := false
deriving DecidableEq, Repr

/-- The request data the middleware reads: method, URL path, optional client
(`request.client.host` when a client is attached), and the `user-agent`
header when present. -/
structure Request where
  method : String
  path : String
  client : Option String := none
  user_agent : Option String := none
deriving DecidableEq, Repr

/-- An HTTP response: status code and headers (a multidict, modelled as an
association list). -/
structure Response where
  status_code : Nat
  headers : List (String × String) := []
deriving DecidableEq, Repr

/-- `response.headers[key] = value` on Starlette's `MutableHeaders`: any
existing entries for the (case-insensitive) key are removed and the new
value stored. -/
def setHeader (hs : List (String × String)) (key value : String) :
    List (String × String) :=
  (hs.filter fun kv => kv.1.toLower ≠ key.toLower) ++ [(key, value)]

/-- Case-insensitive header lookup. -/
def getHeader (hs : List (String × String)) (key : String) : Option String :=
  (hs.find? fun kv => kv.1.toLower = key.toLower).map (·.2)

/-- Per-request mutable state (`request.state`, backed by the ASGI scope's
shared `state` dict, hence visible across middleware layers and the handler).
Only the two attributes this subsystem uses are modelled; an attribute that
was never assigned is `none` (`getattr` with a default observes this). -/
structure ReqState where
  request_id : Option String := none
  db_query_count : Option Nat := none
deriving DecidableEq, Repr

deriving instance DecidableEq for Except

/-- Outcome of running one layer on a request: the request state after the
layer, the log records it (and everything below it) emitted in order, and
either a response or the exception that propagated. -/
structure StepResult where
  state : ReqState
  logs : List MwLog
  result : Except Exn Response
deriving DecidableEq, Repr

/-- A handler (or a middleware-wrapped stack): consumes the current request
state, produces a `StepResult`. -/
def Handler := ReqState → StepResult

/-- Round-half-to-even at integer precision — the rounding Python's `round`
uses on ties. -/
def roundHalfEven (q : ℚ) : ℤ :=
  let f := ⌊q⌋
  let r := q - f
  if r < 1/2 then f
  else if 1/2 < r then f + 1
  else if f % 2 = 0 then f else f + 1

/-- `round(x, 2)`: round to two decimal places. -/
def round2 (q : ℚ) : ℚ := (roundHalfEven (q * 100) : ℚ) / 100

/-- The `"Request started"` INFO record logged on entry
(`middleware.py` lines 61–70). -/
def startRecord (request_id : String) (req : Request) : MwLog :=
  { level := .info
    message := "Request started"
    request_id := some request_id
    method := some req.method
    path := some req.path
    client_ip := some (req.client.getD "unknown")
    user_agent := some (req.user_agent.getD "unknown") }

/-- The `"Request failed with exception"` ERROR record
(`middleware.py` lines 80–89). -/
def failureRecord (request_id : String) (req : Request) (e : Exn)
    (duration_ms : ℚ) : MwLog :=
  { level := .error
    message := "Request failed with exception: " ++ e
    request_id := some request_id
    method := some req.method
    path := some req.path
    duration_ms := some duration_ms
    exc_info := true }

/-- The shared `log_data` of the terminal record on the normal path
(`middleware.py` lines 100–106); severity and message are filled in by the
classification below. -/
def completionRecord (request_id : String) (req : Request) (status : Nat)
    (duration_ms : ℚ) (lvl : Level) (msg : String) : MwLog :=
  { level := lvl
    message := msg
    request_id := some request_id
    method := some req.method
    path := some req.path
    status_code := some status
    duration_ms := some (round2 duration_ms) }

/-- `RequestLoggingMiddleware`: holds the configured slow-request threshold
(seconds, default 1.0). -/
structure RequestLoggingMiddleware where
  slow_request_threshold : ℚ := 1

/-- `RequestLoggingMiddleware.dispatch`, from `middleware.py` lines 42–121.

`request_id` is the UUID generated at entry (line 54) and `elapsed_s` the
wall-clock seconds the downstream call took (lines 73, 79, 93) — both
nondeterministic in the original and therefore parameters here. The method
stores the id on the request state, logs the start record, delegates, and
then either logs the failure record and re-raises, or adds the
`X-Request-ID` header and logs exactly one terminal record classified by
priority (status ≥ 500, status ≥ 400, slow, normal). -/
def RequestLoggingMiddleware.dispatch (self : RequestLoggingMiddleware)
    (request_id : String) (elapsed_s : ℚ) (req : Request)
    (call_next : Handler) : Handler := fun st =>
  let st := { st with request_id := some request_id }
  let inner := call_next st
  match inner.result with
  | .error e =>
    let duration_ms := elapsed_s * 1000
    { state := inner.state
      logs := startRecord request_id req :: inner.logs
          ++ [failureRecord request_id req e duration_ms]
      result := .error e }
  | .ok response =>
    let duration_ms := elapsed_s * 1000
    let duration_s := duration_ms / 1000
    let response :=
      { response with
          headers := setHeader response.headers "X-Request-ID" request_id }
    let endRecord :=
      if 500 ≤ response.status_code then
        completionRecord request_id req response.status_code duration_ms
          .error "Request completed with server error"
      else if 400 ≤ response.status_code then
        completionRecord request_id req response.status_code duration_ms
          .warning "Request completed with client error"
      else if self.slow_request_threshold < duration_s then
        completionRecord request_id req response.status_code duration_ms
          .warning "Slow request detected"
      else
        completionRecord request_id req response.status_code duration_ms
          .info "Request completed"
    { state := inner.state
      logs := startRecord request_id req :: inner.logs ++ [endRecord]
      result := .ok response }

/-- The `"High database query count detected"` WARNING record
(`middleware.py` lines 154–161): request id, query count, and path. -/
def queryWarningRecord (request_id : String) (req : Request)
    (query_count : Nat) : MwLog :=
  { level := .warning
    message := "High database query count detected"
    request_id := some request_id
    query_count := some query_count
    path := some req.path }

/-- The `"Database queries executed"` DEBUG record (`middleware.py`
lines 163–169): request id and query count (no path). -/
def queryDebugRecord (request_id : String) (query_count : Nat) : MwLog :=
  { level := .debug
    message := "Database queries executed: " ++ toString query_count
    request_id := some request_id
    query_count := some query_count }

/-- `DatabaseQueryLoggingMiddleware.dispatch`, from `middleware.py`
lines 131–171. Resets the per-request query counter to 0, delegates, and —
only when downstream returned normally — reports the counter: nothing when
it is 0, one WARNING when it exceeds 10, one DEBUG otherwise. The request id
is read back from the shared request state with default `"unknown"`
(`getattr(request.state, "request_id", "unknown")`). A downstream exception
propagates unobserved (there is no try/except in this method). -/
def DatabaseQueryLoggingMiddleware.dispatch (req : Request)
    (call_next : Handler) : Handler := fun st =>
  let st := { st with db_query_count := some 0 }
  let inner := call_next st
  match inner.result with
  | .error _ => inner
  | .ok response =>
    let query_count := inner.state.db_query_count.getD 0
    if 0 < query_count then
      let request_id := inner.state.request_id.getD "unknown"
      if 10 < query_count then
        { state := inner.state
          logs := inner.logs ++ [queryWarningRecord request_id req query_count]
          result := .ok response }
      else
        { state := inner.state
          logs := inner.logs ++ [queryDebugRecord request_id query_count]
          result := .ok response }
    else
      inner

/-- The deployed middleware stack, from `main.py` lines 74–75:
`add_middleware(RequestLoggingMiddleware, slow_request_threshold=1.0)` then
`add_middleware(DatabaseQueryLoggingMiddleware)`. Starlette inserts each
added middleware at the front of the user-middleware list and wraps the app
in reverse order, so the middleware added last — the query-count one — is
the OUTERMOST layer: it delegates to the correlation/timing middleware,
which delegates to the handler. -/
def appMiddlewareStack (request_id : String) (elapsed_s : ℚ) (req : Request)
    (handler : Handler) : Handler :=
  DatabaseQueryLoggingMiddleware.dispatch req
    (RequestLoggingMiddleware.dispatch { slow_request_threshold := 1 }
      request_id elapsed_s req handler)

/-- The composition the spec's words describe (for comparison with
`appMiddlewareStack`): the query-count middleware "placed inside the
correlation layer", i.e. the correlation middleware outermost. -/
def specOrderedStack (request_id : String) (elapsed_s : ℚ) (req : Request)
    (handler : Handler) : Handler :=
  RequestLoggingMiddleware.dispatch { slow_request_threshold := 1 }
    request_id elapsed_s req
    (DatabaseQueryLoggingMiddleware.dispatch req handler)

/-- The query-count report of `DatabaseQueryLoggingMiddleware.dispatch`
(`middleware.py` lines 147–169) as a function of the request state after the
downstream call: nothing when the counter is 0, one WARNING when it exceeds
10, one DEBUG otherwise, annotated with the stored request id or
`"unknown"`. -/
def queryReport (req : Request) (s : ReqState) : List MwLog :=
  let query_count := s.db_query_count.getD 0
  if 0 < query_count then
    let request_id := s.request_id.getD "unknown"
    if 10 < query_count then [queryWarningRecord request_id req query_count]
    else [queryDebugRecord request_id query_count]
  else []

/-- A downstream handler that returns the given status, emits no log of its
own and leaves the request state unchanged. -/
def okHandler (status : Nat) : Handler := fun s =>
  { state := s, logs := [], result := .ok { status_code := status } }

/-- A downstream handler that raises. -/
def failHandler (e : Exn) : Handler := fun s =>
  { state := s, logs := [], result := .error e }

/-- A downstream handler that performs `n` simulated database operations
(leaving the counter at `n`) and returns 200. -/
def countingHandler (n : Nat) : Handler := fun s =>
  { state := { s with db_query_count := some n }, logs := []
    result := .ok { status_code := 200 } }

/-- Concrete request used by witnesses and counterexamples. -/
def wReq : Request := { method := "GET", path := "/pokemon/42" }

/-- A downstream handler that performs 5 simulated database operations and
returns a 500 response. -/
def counting500Handler : Handler := fun s =>
  { state := { s with db_query_count := some 5 }, logs := []
    result := .ok { status_code := 500 } }

/-- A log record as consumed by the two formatters in `logging_config.py`:
the standard attributes they read (`levelname`, `name`, `getMessage()`,
`module`, `funcName`, `lineno`), the formatted exception text when
`record.exc_info` is set, and the three optional `extra` context fields the
JSON formatter probes with `hasattr`. Every logging call in this repository
passes a fully formatted message and no interpolation arguments, so
`getMessage()` is the stored message string. -/
structure LogRecord where
  name : String
  levelname : String
  message : String
  module : String
  funcName : String
  lineno : Nat
  exc_info : Option String := none
  request_id : Option String := none
  user_id : Option String := none
  duration_ms : Option ℚ := none
deriving DecidableEq, Repr

/-- A scalar JSON value as stored in the formatter's `log_data` dict:
strings, the integer `line`, and the numeric `duration_ms`. There is no
null: an absent context field is simply not added. -/
inductive JVal where
  | jstr (s : String)
  | jnat (n : Nat)
  | jnum (q : ℚ)
deriving DecidableEq, Repr

/-- One conditional `log_data[key] = f(value)` insertion: a singleton field
when the source attribute is present, nothing when it is absent. -/
def optField {α : Type} (key : String) (f : α → JVal) :
    Option α → List (String × JVal)
  | some v => [(key, f v)]
  | none => []

/-- The `log_data` dict built by `JSONFormatter.format`
(`logging_config.py` lines 25–47), in insertion order: the seven
unconditional fields, then `exception`, `request_id`, `user_id`,
`duration_ms` each if and only if present. `now` is the wall-clock
`datetime.utcnow().isoformat()` timestamp, a parameter here. -/
def jsonLogData (now : String) (record : LogRecord) : List (String × JVal) :=
  [("timestamp", .jstr now),
   ("level", .jstr record.levelname),
   ("logger", .jstr record.name),
   ("message", .jstr record.message),
   ("module", .jstr record.module),
   ("function", .jstr record.funcName),
   ("line", .jnat record.lineno)]
  ++ optField "exception" JVal.jstr record.exc_info
  ++ optField "request_id" JVal.jstr record.request_id
  ++ optField "user_id" JVal.jstr record.user_id
  ++ optField "duration_ms" JVal.jnum record.duration_ms

/-- Hexadecimal digit character (lower case), for string escapes. -/
def hexDigitChar (n : Nat) : Char :=
  if n < 10 then Char.ofNat (48 + n) else Char.ofNat (87 + n)

/-- JSON escaping of one character: quote and backslash get a backslash
escape, control characters a `\u00XX` escape, everything else stands for
itself. (The exact escape forms chosen by `json.dumps` differ cosmetically —
short escapes for newline and tab, `\uXXXX` for non-ASCII — but any
grammar-conformant choice parses back identically, which is the property
under study.) -/
def escChar (c : Char) : List Char :=
  if c = '"' ∨ c = '\\' then ['\\', c]
  else if c.toNat < 32 then
    ['\\', 'u', '0', '0', hexDigitChar (c.toNat / 16), hexDigitChar (c.toNat % 16)]
  else [c]

/-- JSON escaping of a string body. -/
def escapeString (s : String) : List Char := s.data.flatMap escChar

/-- A JSON string literal: quote, escaped body, quote. -/
def serializeStr (s : String) : List Char := '"' :: escapeString s ++ ['"']

/-- Little-endian decimal digits of a natural number (empty for 0). -/
def natDigitsRev (n : Nat) : List Nat :=
  if h : n = 0 then [] else n % 10 :: natDigitsRev (n / 10)
termination_by n
decreasing_by exact Nat.div_lt_self (Nat.pos_of_ne_zero h) (by omega)

/-- Decimal digit character. -/
def digitChar (d : Nat) : Char := Char.ofNat (48 + d)

/-- Decimal rendering of a natural number. -/
def serializeNat (n : Nat) : List Char :=
  if n = 0 then ['0'] else (natDigitsRev n).reverse.map digitChar

/-- Exactly `k` decimal digits of `m`, big-endian with leading zeros (the
fractional digit block of a decimal literal). -/
def padDigits : Nat → Nat → List Nat
  | 0, _ => []
  | k + 1, m => m / 10 ^ k :: padDigits k (m % 10 ^ k)

/-- Strip all factors `p` from `n`: the multiplicity of `p` in `n` and the
remaining cofactor. -/
def strip (p : Nat) (n : Nat) : Nat × Nat :=
  if h : 1 < p ∧ n ≠ 0 ∧ n % p = 0 then
    let r := strip p (n / p)
    (r.1 + 1, r.2)
  else (0, n)
termination_by n
decreasing_by exact Nat.div_lt_self (Nat.pos_of_ne_zero h.2.1) h.1

/-- Number of decimal digits sufficient after the point for a fraction with
denominator `den`, when that expansion is finite: the sum of the
multiplicities of 2 and 5 in `den`. -/
def decExp (den : Nat) : Nat := (strip 2 den).1 + (strip 5 (strip 2 den).2).1

/-- Exact decimal rendering of a nonnegative rational: integer part, point,
then `max (decExp q.den) 1` fractional digits — the shape `repr(float)`
hands `json.dumps` (always at least one fractional digit, e.g. `1500.0`).
Total on all of ℚ; exact — inverse to the number parser — whenever the
value is nonnegative with a finite decimal expansion, which every
nonnegative Python float is. -/
def serializeJNumAbs (q : ℚ) : List Char :=
  let e := max (decExp q.den) 1
  let n := (⌊q * 10 ^ e⌋).toNat
  serializeNat (n / 10 ^ e) ++ '.' :: (padDigits e (n % 10 ^ e)).map digitChar

/-- Decimal rendering of a rational: a minus sign for negative values, then
the rendering of the absolute value. -/
def serializeJNum (q : ℚ) : List Char :=
  if q < 0 then '-' :: serializeJNumAbs (-q) else serializeJNumAbs q

/-- Rendering of one scalar JSON value. -/
def serializeJVal : JVal → List Char
  | .jstr s => serializeStr s
  | .jnat n => serializeNat n
  | .jnum q => serializeJNum q

/-- Rendering of one `"key": value` object member. -/
def serializeField (kv : String × JVal) : List Char :=
  serializeStr kv.1 ++ ':' :: serializeJVal kv.2

/-- Comma-separated rendering of the object members. -/
def joinFields : List (String × JVal) → List Char
  | [] => []
  | [kv] => serializeField kv
  | kv :: rest => serializeField kv ++ ',' :: joinFields rest

/-- `json.dumps` of a flat string-keyed object (which is the only shape
`JSONFormatter` produces): braces around the comma-separated members. -/
def json_dumps (fields : List (String × JVal)) : List Char :=
  '\x7b' :: joinFields fields ++ ['\x7d']

/-- Value of a hexadecimal digit character. -/
def hexVal (c : Char) : Option Nat :=
  if 48 ≤ c.toNat ∧ c.toNat ≤ 57 then some (c.toNat - 48)
  else if 97 ≤ c.toNat ∧ c.toNat ≤ 102 then some (c.toNat - 87)
  else if 65 ≤ c.toNat ∧ c.toNat ≤ 70 then some (c.toNat - 55)
  else none

/-- Parse a JSON string body up to the closing quote, undoing the escapes;
returns the decoded characters and the remaining input. -/
def parseStringBody : List Char → Option (List Char × List Char)
  | [] => none
  | c :: cs =>
    if c = '"' then some ([], cs)
    else if c = '\\' then
      match cs with
      | [] => none
      | e :: cs2 =>
        if e = 'u' then
          match cs2 with
          | h1 :: h2 :: h3 :: h4 :: cs3 =>
            match hexVal h1, hexVal h2, hexVal h3, hexVal h4 with
            | some v1, some v2, some v3, some v4 =>
              (parseStringBody cs3).map
                (fun sr => (Char.ofNat (((v1 * 16 + v2) * 16 + v3) * 16 + v4) :: sr.1, sr.2))
            | _, _, _, _ => none
          | _ => none
        else if e = '"' ∨ e = '\\' then
          (parseStringBody cs2).map (fun sr => (e :: sr.1, sr.2))
        else none
    else (parseStringBody cs).map (fun sr => (c :: sr.1, sr.2))

/-- Consume a maximal run of decimal digits, returning their values and the
remaining input. -/
def takeDigits : List Char → List Nat × List Char
  | [] => ([], [])
  | c :: cs =>
    if c.isDigit then
      let p := takeDigits cs
      ((c.toNat - 48) :: p.1, p.2)
    else ([], c :: cs)

/-- The number denoted by a big-endian digit list. -/
def digitsVal (ds : List Nat) : Nat := ds.foldl (fun acc d => acc * 10 + d) 0

/-- Parse a nonempty digit run as a natural number. -/
def parseNat (cs : List Char) : Option (Nat × List Char) :=
  let p := takeDigits cs
  if p.1 = [] then none else some (digitsVal p.1, p.2)

/-- The fraction denoted by a digit list after the decimal point. -/
def fracVal (ds : List Nat) : ℚ := (digitsVal ds : ℚ) / (10 : ℚ) ^ ds.length

/-- Parse one scalar JSON value: a string, or a number (an optional minus
sign, with a fractional part distinguishing `jnum` from `jnat`; a signed
value must carry a fractional part, which is the only signed shape the
serializer emits). -/
def parseJVal (cs : List Char) : Option (JVal × List Char) :=
  match cs with
  | [] => none
  | c :: cs1 =>
    if c = '"' then
      (parseStringBody cs1).map (fun sr => (.jstr (String.mk sr.1), sr.2))
    else if c = '-' then
      match parseNat cs1 with
      | none => none
      | some (n, rest) =>
        match rest with
        | [] => none
        | r :: rest2 =>
          if r = '.' then
            let p := takeDigits rest2
            if p.1 = [] then none
            else some (.jnum (-((n : ℚ) + fracVal p.1)), p.2)
          else none
    else
      match parseNat (c :: cs1) with
      | none => none
      | some (n, rest) =>
        match rest with
        | [] => some (.jnat n, [])
        | r :: rest2 =>
          if r = '.' then
            let p := takeDigits rest2
            if p.1 = [] then none
            else some (.jnum ((n : ℚ) + fracVal p.1), p.2)
          else some (.jnat n, r :: rest2)

/-- Parse one `"key": value` object member. -/
def parseField (cs : List Char) : Option ((String × JVal) × List Char) :=
  match cs with
  | [] => none
  | c :: cs1 =>
    if c = '"' then
      match parseStringBody cs1 with
      | none => none
      | some (k, rest1) =>
        match rest1 with
        | [] => none
        | r :: rest2 =>
          if r = ':' then
            (parseJVal rest2).map (fun vr => ((String.mk k, vr.1), vr.2))
          else none
    else none

/-- Parse a comma-separated nonempty member list up to the closing brace.
`fuel` bounds the number of members (any bound at least the member count
works). -/
def parseFieldsLoop : Nat → List Char → Option (List (String × JVal) × List Char)
  | 0, _ => none
  | fuel + 1, cs =>
    match parseField cs with
    | none => none
    | some (kv, rest) =>
      match rest with
      | [] => none
      | r :: rest2 =>
        if r = ',' then
          (parseFieldsLoop fuel rest2).map (fun fr => (kv :: fr.1, fr.2))
        else if r = '\x7d' then some ([kv], rest2)
        else none

/-- Parse a flat JSON object, returning its members in order and the
remaining input. -/
def parseJson (cs : List Char) : Option (List (String × JVal) × List Char) :=
  match cs with
  | [] => none
  | b :: cs2 =>
    if b = '\x7b' then
      match cs2 with
      | [] => none
      | c :: rest =>
        if c = '\x7d' then some ([], rest)
        else parseFieldsLoop (c :: rest).length (c :: rest)
    else none

/-- A `jnum` must have a finite decimal expansion — some power of ten
clears it to an integer — for decimal rendering to be exact. Every Python
float value satisfies this (a float is `m·2^p`, and `2^p` divides a power
of ten); values like 1/3 do not, but no float equals them. Other `JVal`
shapes carry no constraint. -/
def JNumOK : JVal → Prop
  | .jnum q => ∃ (m : ℤ) (k : ℕ), q * 10 ^ k = (m : ℚ)
  | _ => True

/-- `JSONFormatter.format` (`logging_config.py` lines 23–49): renders the
record's `log_data` as one JSON object. The record is returned alongside to
model that the original is left untouched for other sinks. `now` stands for
`datetime.utcnow().isoformat()`. -/
def JSONFormatter.format (now : String) (record : LogRecord) :
    String × LogRecord :=
  (String.mk (json_dumps (jsonLogData now record)), record)

/-- The ANSI color table of `ColoredConsoleFormatter`
(`logging_config.py` lines 59–65). -/
def ColoredConsoleFormatter.COLORS : List (String × String) :=
  [("DEBUG", "\x1b[36m"), ("INFO", "\x1b[32m"), ("WARNING", "\x1b[33m"),
   ("ERROR", "\x1b[31m"), ("CRITICAL", "\x1b[35m")]

/-- The ANSI reset code. -/
def ColoredConsoleFormatter.RESET : String := "\x1b[0m"

/-- The `'%(asctime)s - %(name)s - %(levelname)s - %(message)s'` line format
used by the console and file text formatters (`logging_config.py`
lines 124–127, 147–150). `asctime` is the record's formatted creation time,
a parameter here. -/
def formatLine (asctime : String) (record : LogRecord) : String :=
  asctime ++ " - " ++ record.name ++ " - " ++ record.levelname ++ " - "
    ++ record.message

/-- `ColoredConsoleFormatter.format` (`logging_config.py` lines 68–78):
copies the record (`copy.copy`), colors the copy's `levelname` — an unknown
level name falls back to the reset code via `COLORS.get(…, RESET)` — and
formats the copy. The untouched original is returned alongside, modelling
that colors never leak into other sinks consuming the same record. -/
def ColoredConsoleFormatter.format (asctime : String) (record : LogRecord) :
    String × LogRecord :=
  let record_copy := record
  let color := (ColoredConsoleFormatter.COLORS.lookup record_copy.levelname).getD
    ColoredConsoleFormatter.RESET
  let record_copy := { record_copy with
    levelname := color ++ record_copy.levelname ++ ColoredConsoleFormatter.RESET }
  (formatLine asctime record_copy, record)

/-- Python `str.upper`, modelled as per-character uppercasing (the level
names consulted are ASCII). -/
def pyUpper (s : String) : String := String.mk (s.data.map Char.toUpper)

/-- A value of an attribute of the `logging` module: a numeric level
constant, a string constant, or the `_STYLES` dict (opaque here — all that
matters to `setLevel` is that it is neither an int nor a str). -/
inductive LoggingAttr where
  | level (n : Nat)
  | str (s : String)
  | stylesDict
deriving DecidableEq, Repr

/-- The attributes of CPython's `logging` module whose names contain no
lower-case letter — the only ones an `.upper()`-ed input can hit — as
consulted by `getattr(logging, log_level.upper(), logging.INFO)` in
`setup_logging` (`logging_config.py` line 102): the level constants
CRITICAL=50, FATAL=50, ERROR=40, WARNING=30, WARN=30, INFO=20, DEBUG=10,
NOTSET=0, the string constant BASIC_FORMAT, and the dict `_STYLES`. Any
other such name is absent (the module's remaining attributes, dunders
included, all contain lower-case letters and cannot equal an upper-cased
input). Modelled from the CPython standard library the code calls into. -/
def getattrLogging (name : String) : Option LoggingAttr :=
  if name = "CRITICAL" then some (.level 50)
  else if name = "FATAL" then some (.level 50)
  else if name = "ERROR" then some (.level 40)
  else if name = "WARNING" then some (.level 30)
  else if name = "WARN" then some (.level 30)
  else if name = "INFO" then some (.level 20)
  else if name = "DEBUG" then some (.level 10)
  else if name = "NOTSET" then some (.level 0)
  else if name = "BASIC_FORMAT" then
    some (.str "%(levelname)s:%(name)s:%(message)s")
  else if name = "_STYLES" then some .stylesDict
  else none

/-- CPython's `logging._nameToLevel` registry, used by `_checkLevel`. -/
def nameToLevel (s : String) : Option Nat :=
  if s = "CRITICAL" then some 50
  else if s = "FATAL" then some 50
  else if s = "ERROR" then some 40
  else if s = "WARN" then some 30
  else if s = "WARNING" then some 30
  else if s = "INFO" then some 20
  else if s = "DEBUG" then some 10
  else if s = "NOTSET" then some 0
  else none

/-- CPython's `logging._checkLevel`, applied by `Logger.setLevel` and
`Handler.setLevel`: an int passes through; a string must be a registered
level name, otherwise `ValueError` is raised; anything else — such as the
`_STYLES` dict — raises `TypeError`. Both exception kinds are modelled as
the error outcome, carrying the exception's message text. Modelled from the
CPython standard library the code calls into. -/
def checkLevel : LoggingAttr → Except String Nat
  | .level n => .ok n
  | .str s =>
    match nameToLevel s with
    | some n => .ok n
    | none => .error ("Unknown level: " ++ s)
  | .stylesDict => .error "Level not an integer or a valid string"

/-- The formatter attached to a sink. -/
inductive FormatterKind where
  | jsonFmt
  | colored (fmt : String) (datefmt : String)
  | plain (fmt : String) (datefmt : String)
deriving DecidableEq, Repr

/-- The kind of an output sink, with its construction arguments. -/
inductive SinkKind where
  | consoleStdout
  | rotatingFile (filename : String) (maxBytes : Nat) (backupCount : Nat)
      (encoding : String)
  | timedRotatingFile (filename : String) (whenStr : String) (interval : Nat)
      (backupCount : Nat) (encoding : String)
deriving DecidableEq, Repr

/-- A registered sink: kind, minimum severity, formatter. -/
structure SinkHandler where
  kind : SinkKind
  level : Nat
  formatter : FormatterKind
deriving DecidableEq, Repr

/-- Process-wide logging state touched by `setup_logging`: the root logger's
level and handler list, and the two third-party logger levels it adjusts. -/
structure RootLoggerState where
  level : Nat
  handlers : List SinkHandler
  uvicorn_access_level : Nat
  sqlalchemy_engine_level : Nat
deriving DecidableEq, Repr

/-- The parameters of `setup_logging`, with their Python defaults. -/
structure SetupParams where
  log_level : String := "INFO"
  log_dir : Option String := none
  enable_json_logs : Bool := false
  enable_file_logs : Bool := true
  app_name : String := "blazing"
deriving DecidableEq, Repr

/-- `setup_logging` (`logging_config.py` lines 81–176) as a transition on
the process-wide logging state. Directory creation (line 108) is
environmental and modelled as succeeding; the final "Logging initialized"
INFO record (lines 173–176) is an emission, not state, and is not modelled.
`root_logger.setLevel(numeric_level)` raises `ValueError` when
`numeric_level` is a string that is not a registered level name — which
happens exactly for the module attribute `BASIC_FORMAT`; the previous
handler set is cleared only after that point, and the new handler list
never depends on the prior state. -/
def setup_logging (p : SetupParams) (root : RootLoggerState) :
    Except String RootLoggerState :=
  let numeric_level := (getattrLogging (pyUpper p.log_level)).getD (.level 20)
  match checkLevel numeric_level with
  | .error e => .error e
  | .ok lvl =>
    let console_formatter : FormatterKind :=
      if p.enable_json_logs then .jsonFmt
      else .colored "%(asctime)s - %(name)s - %(levelname)s - %(message)s"
        "%Y-%m-%d %H:%M:%S"
    let console : SinkHandler :=
      { kind := .consoleStdout, level := lvl, formatter := console_formatter }
    if p.enable_file_logs then
      let log_dir := p.log_dir.getD "logs"
      let file_formatter : FormatterKind :=
        if p.enable_json_logs then .jsonFmt
        else .plain "%(asctime)s - %(name)s - %(levelname)s - %(message)s"
          "%Y-%m-%d %H:%M:%S"
      let file_handler : SinkHandler :=
        { kind := .rotatingFile (log_dir ++ "/" ++ p.app_name ++ ".log")
            (10 * 1024 * 1024) 5 "utf-8"
          level := lvl
          formatter := file_formatter }
      let error_handler : SinkHandler :=
        { kind := .timedRotatingFile (log_dir ++ "/" ++ p.app_name ++ "_error.log")
            "midnight" 1 30 "utf-8"
          level := 40
          formatter := file_formatter }
      .ok { level := lvl
            handlers := [console, file_handler, error_handler]
            uvicorn_access_level := 30
            sqlalchemy_engine_level := 30 }
    else
      .ok { level := lvl
            handlers := [console]
            uvicorn_access_level := 30
            sqlalchemy_engine_level := 30 }

/-- An arbitrary prior logging state (Python's initial root logger:
WARNING level, no handlers of this subsystem). -/
def initialRoot : RootLoggerState :=
  { level := 30, handlers := [], uvicorn_access_level := 20
    sqlalchemy_engine_level := 20 }

/-- Concrete record with no optional context, for witnesses. -/
def wRec : LogRecord :=
  { name := "blazing.routes.pokemon", levelname := "INFO"
    message := "Request completed", module := "middleware"
    funcName := "dispatch", lineno := 119 }

/-- Looking up a header immediately after setting it returns the stored
value. -/
theorem getHeader_setHeader (hs : List (String × String)) (key value : String) :
    getHeader (setHeader hs key value) key = some value := by
  have hnone : (hs.filter fun kv => kv.1.toLower ≠ key.toLower).find?
      (fun kv => kv.1.toLower = key.toLower) = none := by
    rw [List.find?_eq_none]
    intro kv hkv
    simpa using (List.mem_filter.mp hkv).2
  simp [getHeader, setHeader, List.find?_append, hnone]

/-- Unfolding of `RequestLoggingMiddleware.dispatch` when the downstream call
returns a response: the state is the downstream state, the logs are the start
record, the downstream logs, then exactly one terminal record classified by
priority, and the result is the response with the `X-Request-ID` header set. -/
theorem RequestLoggingMiddleware.dispatch_ok_eq
    (self : RequestLoggingMiddleware) (rid : String) (el : ℚ) (req : Request)
    (call_next : Handler) (st : ReqState) (resp : Response)
    (hok : (call_next { st with request_id := some rid }).result = .ok resp) :
    self.dispatch rid el req call_next st =
      { state := (call_next { st with request_id := some rid }).state
        logs := startRecord rid req
            :: (call_next { st with request_id := some rid }).logs
            ++ [if 500 ≤ resp.status_code then
                  completionRecord rid req resp.status_code (el * 1000) .error
                    "Request completed with server error"
                else if 400 ≤ resp.status_code then
                  completionRecord rid req resp.status_code (el * 1000) .warning
                    "Request completed with client error"
                else if self.slow_request_threshold < el then
                  completionRecord rid req resp.status_code (el * 1000) .warning
                    "Slow request detected"
                else
                  completionRecord rid req resp.status_code (el * 1000) .info
                    "Request completed"]
        result := .ok { resp with
            headers := setHeader resp.headers "X-Request-ID" rid } } := by
  rcases hcn : call_next { st with request_id := some rid } with ⟨ist, ilogs, ires⟩
  rw [hcn] at hok
  simp only at hok
  subst hok
  have hdur : el * 1000 / 1000 = el := by ring
  simp [RequestLoggingMiddleware.dispatch, hcn, hdur]

/-- Unfolding of `RequestLoggingMiddleware.dispatch` when the downstream call
raises: the logs are the start record, the downstream logs, then exactly one
ERROR failure record, and the same exception propagates. -/
theorem RequestLoggingMiddleware.dispatch_error_eq
    (self : RequestLoggingMiddleware) (rid : String) (el : ℚ) (req : Request)
    (call_next : Handler) (st : ReqState) (e : Exn)
    (herr : (call_next { st with request_id := some rid }).result = .error e) :
    self.dispatch rid el req call_next st =
      { state := (call_next { st with request_id := some rid }).state
        logs := startRecord rid req
            :: (call_next { st with request_id := some rid }).logs
            ++ [failureRecord rid req e (el * 1000)]
        result := .error e } := by
  rcases hcn : call_next { st with request_id := some rid } with ⟨ist, ilogs, ires⟩
  rw [hcn] at herr
  simp only at herr
  subst herr
  simp [RequestLoggingMiddleware.dispatch, hcn]

/-- C1: for every request whose downstream call returns normally, the
correlation/timing middleware emits exactly one terminal record, whose
severity is chosen by strict priority — ERROR for status ≥ 500, else WARNING
for status ≥ 400, else WARNING when the elapsed time exceeds the slow-request
threshold, else INFO — and the four cases are mutually exclusive. -/
theorem c1_terminal_severity
    (self : RequestLoggingMiddleware) (rid : String) (el : ℚ) (req : Request)
    (call_next : Handler) (st : ReqState) (resp : Response)
    (hok : (call_next { st with request_id := some rid }).result = .ok resp) :
    ∃ lvl msg,
      (self.dispatch rid el req call_next st).logs
        = startRecord rid req
            :: (call_next { st with request_id := some rid }).logs
            ++ [completionRecord rid req resp.status_code (el * 1000) lvl msg] ∧
      (500 ≤ resp.status_code →
        lvl = .error ∧ msg = "Request completed with server error") ∧
      (400 ≤ resp.status_code → resp.status_code < 500 →
        lvl = .warning ∧ msg = "Request completed with client error") ∧
      (resp.status_code < 400 → self.slow_request_threshold < el →
        lvl = .warning ∧ msg = "Slow request detected") ∧
      (resp.status_code < 400 → el ≤ self.slow_request_threshold →
        lvl = .info ∧ msg = "Request completed") := by
  rw [RequestLoggingMiddleware.dispatch_ok_eq self rid el req call_next st resp hok]
  by_cases h5 : 500 ≤ resp.status_code
  · refine ⟨.error, "Request completed with server error", by simp [h5], ?_⟩
    refine ⟨fun _ => ⟨rfl, rfl⟩, fun _ hlt => absurd h5 (by omega),
      fun hlt _ => absurd h5 (by omega), fun hlt _ => absurd h5 (by omega)⟩
  · by_cases h4 : 400 ≤ resp.status_code
    · refine ⟨.warning, "Request completed with client error",
        by simp [h5, h4], ?_⟩
      refine ⟨fun h => absurd h h5, fun _ _ => ⟨rfl, rfl⟩,
        fun hlt _ => absurd h4 (by omega), fun hlt _ => absurd h4 (by omega)⟩
    · by_cases hs : self.slow_request_threshold < el
      · refine ⟨.warning, "Slow request detected", by simp [h5, h4, hs], ?_⟩
        refine ⟨fun h => absurd h h5, fun h _ => absurd h h4,
          fun _ _ => ⟨rfl, rfl⟩, fun _ hle => absurd hs (by linarith)⟩
      · refine ⟨.info, "Request completed", by simp [h5, h4, hs], ?_⟩
        refine ⟨fun h => absurd h h5, fun h _ => absurd h h4,
          fun _ h => absurd h hs, fun _ _ => ⟨rfl, rfl⟩⟩

/-- Witness for `c1_terminal_severity`: a 200 response after 2 s against the
default 1 s threshold. -/
theorem c1_terminal_severity_witness :
    ∃ lvl msg,
      (RequestLoggingMiddleware.dispatch {} "w1" 2 wReq (okHandler 200) {}).logs
        = startRecord "w1" wReq
            :: (okHandler 200 { request_id := some "w1" }).logs
            ++ [completionRecord "w1" wReq 200 (2 * 1000) lvl msg] ∧
      (500 ≤ 200 → lvl = .error ∧ msg = "Request completed with server error") ∧
      (400 ≤ 200 → 200 < 500 →
        lvl = .warning ∧ msg = "Request completed with client error") ∧
      (200 < 400 → (1 : ℚ) < 2 →
        lvl = .warning ∧ msg = "Slow request detected") ∧
      (200 < 400 → (2 : ℚ) ≤ 1 → lvl = .info ∧ msg = "Request completed") :=
  c1_terminal_severity {} "w1" 2 wReq (okHandler 200) {}
    { status_code := 200 } rfl

/-- C2 is refuted as stated: when the downstream handler raises, the
middleware returns no response at all (it re-raises), so no returned
response carries the `X-Request-ID` header. Concrete failing input: a GET
request whose handler raises `"boom"`. -/
theorem c2_header_on_exception_cex :
    ¬ ∃ resp : Response,
      (RequestLoggingMiddleware.dispatch {} "rid-1" 0 wReq
          (failHandler "boom") {}).result = .ok resp ∧
      getHeader resp.headers "X-Request-ID" = some "rid-1" := by
  rintro ⟨resp, hres, -⟩
  rw [RequestLoggingMiddleware.dispatch_error_eq {} "rid-1" 0 wReq
    (failHandler "boom") {} "boom" rfl] at hres
  simp at hres

/-- C2 (amended): whenever the correlation/timing middleware returns a
response — i.e. exactly when the downstream call returned normally — that
response carries the `X-Request-ID` header set to the correlation identifier
generated at entry. On the exception path no response is returned by this
middleware (`c2_header_on_exception_cex`). -/
theorem c2_response_header
    (self : RequestLoggingMiddleware) (rid : String) (el : ℚ) (req : Request)
    (call_next : Handler) (st : ReqState) (resp' : Response)
    (hok : (self.dispatch rid el req call_next st).result = .ok resp') :
    getHeader resp'.headers "X-Request-ID" = some rid := by
  cases hres : (call_next { st with request_id := some rid }).result with
  | error e =>
    rw [RequestLoggingMiddleware.dispatch_error_eq self rid el req
      call_next st e hres] at hok
    simp at hok
  | ok resp =>
    rw [RequestLoggingMiddleware.dispatch_ok_eq self rid el req
      call_next st resp hres] at hok
    simp only [Except.ok.injEq] at hok
    subst hok
    exact getHeader_setHeader resp.headers "X-Request-ID" rid

/-- Witness for `c2_response_header`. -/
theorem c2_response_header_witness :
    getHeader [("X-Request-ID", "w2")] "X-Request-ID" = some "w2" :=
  c2_response_header {} "w2" 0 wReq (okHandler 200) {}
    { status_code := 200, headers := [("X-Request-ID", "w2")] } (by decide)

/-- C3: when the downstream call raises, the middleware logs exactly one
ERROR record carrying the correlation id, method, path, elapsed duration and
the failure detail, and re-raises the very same exception. -/
theorem c3_exception_logged_and_reraised
    (self : RequestLoggingMiddleware) (rid : String) (el : ℚ) (req : Request)
    (call_next : Handler) (st : ReqState) (e : Exn)
    (herr : (call_next { st with request_id := some rid }).result = .error e) :
    (self.dispatch rid el req call_next st).result = .error e ∧
    (self.dispatch rid el req call_next st).logs
      = startRecord rid req
          :: (call_next { st with request_id := some rid }).logs
          ++ [failureRecord rid req e (el * 1000)] ∧
    (failureRecord rid req e (el * 1000)).level = .error ∧
    (failureRecord rid req e (el * 1000)).request_id = some rid ∧
    (failureRecord rid req e (el * 1000)).method = some req.method ∧
    (failureRecord rid req e (el * 1000)).path = some req.path ∧
    (failureRecord rid req e (el * 1000)).duration_ms = some (el * 1000) ∧
    (failureRecord rid req e (el * 1000)).message
      = "Request failed with exception: " ++ e := by
  rw [RequestLoggingMiddleware.dispatch_error_eq self rid el req call_next st e herr]
  exact ⟨rfl, rfl, rfl, rfl, rfl, rfl, rfl, rfl⟩

/-- Witness for `c3_exception_logged_and_reraised`. -/
theorem c3_exception_logged_and_reraised_witness :
    (RequestLoggingMiddleware.dispatch {} "w3" 3 wReq
        (failHandler "kaboom") {}).result = .error "kaboom" ∧
    (RequestLoggingMiddleware.dispatch {} "w3" 3 wReq
        (failHandler "kaboom") {}).logs
      = startRecord "w3" wReq
          :: (failHandler "kaboom" { request_id := some "w3" }).logs
          ++ [failureRecord "w3" wReq "kaboom" (3 * 1000)] ∧
    (failureRecord "w3" wReq "kaboom" (3 * 1000)).level = .error ∧
    (failureRecord "w3" wReq "kaboom" (3 * 1000)).request_id = some "w3" ∧
    (failureRecord "w3" wReq "kaboom" (3 * 1000)).method = some wReq.method ∧
    (failureRecord "w3" wReq "kaboom" (3 * 1000)).path = some wReq.path ∧
    (failureRecord "w3" wReq "kaboom" (3 * 1000)).duration_ms = some (3 * 1000) ∧
    (failureRecord "w3" wReq "kaboom" (3 * 1000)).message
      = "Request failed with exception: " ++ "kaboom" :=
  c3_exception_logged_and_reraised {} "w3" 3 wReq (failHandler "kaboom") {}
    "kaboom" rfl

/-- Unfolding of `DatabaseQueryLoggingMiddleware.dispatch` when downstream
returns a response: the counter is reset to 0 before delegating; afterwards
the query report (`queryReport`) is appended to the downstream logs and the
response passes through unchanged. -/
theorem db_dispatch_ok_eq (req : Request) (call_next : Handler)
    (st : ReqState) (resp : Response)
    (hok : (call_next { st with db_query_count := some 0 }).result = .ok resp) :
    DatabaseQueryLoggingMiddleware.dispatch req call_next st =
      { state := (call_next { st with db_query_count := some 0 }).state
        logs := (call_next { st with db_query_count := some 0 }).logs
            ++ queryReport req (call_next { st with db_query_count := some 0 }).state
        result := .ok resp } := by
  rcases hcn : call_next { st with db_query_count := some 0 } with ⟨ist, ilogs, ires⟩
  rw [hcn] at hok
  simp only at hok
  subst hok
  by_cases h0 : 0 < ist.db_query_count.getD 0
  · by_cases h10 : 10 < ist.db_query_count.getD 0
    · simp [DatabaseQueryLoggingMiddleware.dispatch, hcn, queryReport, h0, h10]
    · simp [DatabaseQueryLoggingMiddleware.dispatch, hcn, queryReport, h0, h10]
  · simp [DatabaseQueryLoggingMiddleware.dispatch, hcn, queryReport, h0]

/-- Unfolding of `DatabaseQueryLoggingMiddleware.dispatch` when downstream
raises: the exception propagates unobserved, nothing is logged by this
layer. -/
theorem db_dispatch_error_eq (req : Request) (call_next : Handler)
    (st : ReqState) (e : Exn)
    (herr : (call_next { st with db_query_count := some 0 }).result = .error e) :
    DatabaseQueryLoggingMiddleware.dispatch req call_next st
      = call_next { st with db_query_count := some 0 } := by
  rcases hcn : call_next { st with db_query_count := some 0 } with ⟨ist, ilogs, ires⟩
  rw [hcn] at herr
  simp only at herr
  subst herr
  simp [DatabaseQueryLoggingMiddleware.dispatch, hcn]

/-- Every record of a query report is annotated with the stored request id
(default `"unknown"`) and carries a query count. -/
theorem queryReport_fields (req : Request) (s : ReqState) :
    ∀ r ∈ queryReport req s,
      r.request_id = some (s.request_id.getD "unknown")
        ∧ r.query_count ≠ none := by
  intro r hr
  simp only [queryReport] at hr
  split_ifs at hr with h0 h10
  · rw [List.mem_singleton] at hr
    subst hr
    exact ⟨rfl, by simp [queryWarningRecord]⟩
  · rw [List.mem_singleton] at hr
    subst hr
    exact ⟨rfl, by simp [queryDebugRecord]⟩
  · simp at hr

/-- C7: the query-count middleware resets the per-request counter to 0
before delegating (the downstream call receives the reset state); after a
normal return it logs nothing when the counter is 0, exactly one DEBUG
record with the count when it is between 1 and 10, and exactly one WARNING
record with the count when it exceeds 10 — and passes the response through
unchanged. -/
theorem c7_query_count_report
    (req : Request) (call_next : Handler) (st : ReqState) (resp : Response)
    (hok : (call_next { st with db_query_count := some 0 }).result = .ok resp) :
    (DatabaseQueryLoggingMiddleware.dispatch req call_next st).result = .ok resp ∧
    ((call_next { st with db_query_count := some 0 }).state.db_query_count.getD 0 = 0 →
      (DatabaseQueryLoggingMiddleware.dispatch req call_next st).logs
        = (call_next { st with db_query_count := some 0 }).logs) ∧
    (∀ c, (call_next { st with db_query_count := some 0 }).state.db_query_count.getD 0 = c →
      1 ≤ c → c ≤ 10 →
      (DatabaseQueryLoggingMiddleware.dispatch req call_next st).logs
        = (call_next { st with db_query_count := some 0 }).logs
          ++ [queryDebugRecord
              ((call_next { st with db_query_count := some 0 }).state.request_id.getD "unknown") c]) ∧
    (∀ c, (call_next { st with db_query_count := some 0 }).state.db_query_count.getD 0 = c →
      10 < c →
      (DatabaseQueryLoggingMiddleware.dispatch req call_next st).logs
        = (call_next { st with db_query_count := some 0 }).logs
          ++ [queryWarningRecord
              ((call_next { st with db_query_count := some 0 }).state.request_id.getD "unknown") req c]) := by
  rw [db_dispatch_ok_eq req call_next st resp hok]
  refine ⟨rfl, ?_, ?_, ?_⟩
  · intro h0
    simp [queryReport, h0]
  · intro c hc h1 h10
    simp [queryReport, hc, show 0 < c by omega, show ¬ 10 < c by omega]
  · intro c hc h10
    simp [queryReport, hc, show 0 < c by omega, h10]

/-- Witness for `c7_query_count_report`, at the counts 0, 5 and 15 of the
spec's example: no record, one DEBUG with count 5, one WARNING with
count 15. -/
theorem c7_query_count_report_witness :
    (DatabaseQueryLoggingMiddleware.dispatch wReq (countingHandler 0) {}).logs
        = (countingHandler 0 { db_query_count := some 0 }).logs ∧
    (DatabaseQueryLoggingMiddleware.dispatch wReq (countingHandler 5) {}).logs
        = (countingHandler 5 { db_query_count := some 0 }).logs
          ++ [queryDebugRecord "unknown" 5] ∧
    (DatabaseQueryLoggingMiddleware.dispatch wReq (countingHandler 15) {}).logs
        = (countingHandler 15 { db_query_count := some 0 }).logs
          ++ [queryWarningRecord "unknown" wReq 15] :=
  ⟨(c7_query_count_report wReq (countingHandler 0) {}
      { status_code := 200 } rfl).2.1 rfl,
   (c7_query_count_report wReq (countingHandler 5) {}
      { status_code := 200 } rfl).2.2.1 5 rfl (by decide) (by decide),
   (c7_query_count_report wReq (countingHandler 15) {}
      { status_code := 200 } rfl).2.2.2 15 rfl (by decide)⟩

/-- C10: when no correlation identifier was stored on the request state, the
query-count middleware still completes normally and labels any record it
emits with request id `"unknown"`. -/
theorem c10_unknown_request_id
    (req : Request) (call_next : Handler) (st : ReqState) (resp : Response)
    (hok : (call_next { st with db_query_count := some 0 }).result = .ok resp)
    (hnone : (call_next { st with db_query_count := some 0 }).state.request_id = none) :
    (DatabaseQueryLoggingMiddleware.dispatch req call_next st).result = .ok resp ∧
    ∃ extra,
      (DatabaseQueryLoggingMiddleware.dispatch req call_next st).logs
        = (call_next { st with db_query_count := some 0 }).logs ++ extra ∧
      ∀ r ∈ extra, r.request_id = some "unknown" := by
  rw [db_dispatch_ok_eq req call_next st resp hok]
  refine ⟨rfl,
    queryReport req (call_next { st with db_query_count := some 0 }).state,
    rfl, ?_⟩
  intro r hr
  have h := (queryReport_fields req _ r hr).1
  rwa [hnone] at h

/-- Witness for `c10_unknown_request_id`: a handler that performs 5 queries
under a state with no correlation identifier. -/
theorem c10_unknown_request_id_witness :
    (DatabaseQueryLoggingMiddleware.dispatch wReq (countingHandler 5) {}).result
        = .ok { status_code := 200 } ∧
    ∃ extra,
      (DatabaseQueryLoggingMiddleware.dispatch wReq (countingHandler 5) {}).logs
        = (countingHandler 5 { db_query_count := some 0 }).logs ++ extra ∧
      ∀ r ∈ extra, r.request_id = some "unknown" :=
  c10_unknown_request_id wReq (countingHandler 5) {} { status_code := 200 }
    rfl rfl

/-- C6 is refuted as stated: the deployed stack (`main.py` lines 74–75)
places the query-count middleware OUTSIDE the correlation middleware, not
inside it — on a handler performing 5 queries the two compositions'
observable outcomes differ (the deployed stack emits the query record after
the terminal record, the spec's ordering would emit it before). -/
theorem c6_stack_order_cex :
    appMiddlewareStack "rid-6" 0 wReq counting500Handler {}
      ≠ specOrderedStack "rid-6" 0 wReq counting500Handler {} := by decide

/-- C6 (amended): the query-count middleware is registered after the
correlation middleware and therefore wraps it (runs outside); but it emits
its records only after downstream returns, by which time the correlation
middleware has stored the identifier in the shared request state — so,
provided downstream preserves the stored identifier, every query-count
record is annotated with that request's correlation identifier, and is
emitted after all of the correlation layer's records. -/
theorem c6_query_records_annotated
    (rid : String) (el : ℚ) (req : Request) (handler : Handler) (st : ReqState)
    (hpres : ∀ s, (handler s).state.request_id = s.request_id) :
    ∃ extra,
      (appMiddlewareStack rid el req handler st).logs
        = (RequestLoggingMiddleware.dispatch { slow_request_threshold := 1 }
            rid el req handler { st with db_query_count := some 0 }).logs ++ extra ∧
      ∀ r ∈ extra, r.request_id = some rid ∧ r.query_count ≠ none := by
  unfold appMiddlewareStack
  cases hres : (handler { { st with db_query_count := some 0 } with
      request_id := some rid }).result with
  | error e =>
    have hrl := RequestLoggingMiddleware.dispatch_error_eq
      { slow_request_threshold := 1 } rid el req handler
      { st with db_query_count := some 0 } e hres
    rw [db_dispatch_error_eq req _ st e (by rw [hrl])]
    exact ⟨[], by simp, by simp⟩
  | ok resp =>
    have hrl := RequestLoggingMiddleware.dispatch_ok_eq
      { slow_request_threshold := 1 } rid el req handler
      { st with db_query_count := some 0 } resp hres
    have hok2 : (RequestLoggingMiddleware.dispatch { slow_request_threshold := 1 }
        rid el req handler { st with db_query_count := some 0 }).result
        = .ok { resp with headers := setHeader resp.headers "X-Request-ID" rid } := by
      rw [hrl]
    rw [db_dispatch_ok_eq req _ st _ hok2]
    refine ⟨queryReport req
      (RequestLoggingMiddleware.dispatch { slow_request_threshold := 1 }
        rid el req handler { st with db_query_count := some 0 }).state, rfl, ?_⟩
    intro r hr
    have hsid : (RequestLoggingMiddleware.dispatch { slow_request_threshold := 1 }
        rid el req handler { st with db_query_count := some 0 }).state.request_id
        = some rid := by
      rw [hrl]
      simpa using hpres { { st with db_query_count := some 0 } with
        request_id := some rid }
    have h := queryReport_fields req _ r hr
    rw [hsid] at h
    simpa using h

/-- Witness for `c6_query_records_annotated`. -/
theorem c6_query_records_annotated_witness :
    ∃ extra,
      (appMiddlewareStack "w6" 0 wReq (countingHandler 5) {}).logs
        = (RequestLoggingMiddleware.dispatch { slow_request_threshold := 1 }
            "w6" 0 wReq (countingHandler 5) { db_query_count := some 0 }).logs ++ extra ∧
      ∀ r ∈ extra, r.request_id = some "w6" ∧ r.query_count ≠ none :=
  c6_query_records_annotated "w6" 0 wReq (countingHandler 5) {}
    (fun _ => rfl)

/-- The seven unconditional fields are always present in the rendered
object. -/
theorem jsonLogData_required (now : String) (r : LogRecord) :
    ("timestamp", JVal.jstr now) ∈ jsonLogData now r ∧
    ("level", JVal.jstr r.levelname) ∈ jsonLogData now r ∧
    ("logger", JVal.jstr r.name) ∈ jsonLogData now r ∧
    ("message", JVal.jstr r.message) ∈ jsonLogData now r ∧
    ("module", JVal.jstr r.module) ∈ jsonLogData now r ∧
    ("function", JVal.jstr r.funcName) ∈ jsonLogData now r ∧
    ("line", JVal.jnat r.lineno) ∈ jsonLogData now r := by
  refine ⟨?_, ?_, ?_, ?_, ?_, ?_, ?_⟩ <;> simp [jsonLogData]

/-- The `exception` field is present exactly when the record carries
failure information. -/
theorem jsonLogData_exception_iff (now : String) (r : LogRecord) :
    (∃ v, ("exception", v) ∈ jsonLogData now r) ↔ r.exc_info ≠ none := by
  cases h1 : r.exc_info <;> cases h2 : r.request_id <;> cases h3 : r.user_id
    <;> cases h4 : r.duration_ms <;> simp [jsonLogData, optField, h1, h2, h3, h4]

/-- The `request_id` field is present exactly when the record carries one. -/
theorem jsonLogData_request_id_iff (now : String) (r : LogRecord) :
    (∃ v, ("request_id", v) ∈ jsonLogData now r) ↔ r.request_id ≠ none := by
  cases h1 : r.exc_info <;> cases h2 : r.request_id <;> cases h3 : r.user_id
    <;> cases h4 : r.duration_ms <;> simp [jsonLogData, optField, h1, h2, h3, h4]

/-- The `user_id` field is present exactly when the record carries one. -/
theorem jsonLogData_user_id_iff (now : String) (r : LogRecord) :
    (∃ v, ("user_id", v) ∈ jsonLogData now r) ↔ r.user_id ≠ none := by
  cases h1 : r.exc_info <;> cases h2 : r.request_id <;> cases h3 : r.user_id
    <;> cases h4 : r.duration_ms <;> simp [jsonLogData, optField, h1, h2, h3, h4]

/-- The `duration_ms` field is present exactly when the record carries
one. -/
theorem jsonLogData_duration_iff (now : String) (r : LogRecord) :
    (∃ v, ("duration_ms", v) ∈ jsonLogData now r) ↔ r.duration_ms ≠ none := by
  cases h1 : r.exc_info <;> cases h2 : r.request_id <;> cases h3 : r.user_id
    <;> cases h4 : r.duration_ms <;> simp [jsonLogData, optField, h1, h2, h3, h4]

/-- C4: both renderers are total functions of the record (they cannot raise:
the ANSI color and every optional context field are read through defaulted
or guarded lookups, modelled by `getD` and `Option` matches), a missing
context field is omitted from the JSON output rather than being an error,
and neither renderer mutates the record observable by other sinks — the
colored renderer colors only its private copy. -/
theorem c4_renderers_pure_and_total (now asctime : String) (r : LogRecord) :
    (JSONFormatter.format now r).2 = r ∧
    (ColoredConsoleFormatter.format asctime r).2 = r ∧
    (r.exc_info = none → ∀ v, ("exception", v) ∉ jsonLogData now r) ∧
    (r.request_id = none → ∀ v, ("request_id", v) ∉ jsonLogData now r) ∧
    (r.user_id = none → ∀ v, ("user_id", v) ∉ jsonLogData now r) ∧
    (r.duration_ms = none → ∀ v, ("duration_ms", v) ∉ jsonLogData now r) := by
  refine ⟨rfl, rfl, ?_, ?_, ?_, ?_⟩
  · intro h v hv
    exact absurd ((jsonLogData_exception_iff now r).mp ⟨v, hv⟩) (by simp [h])
  · intro h v hv
    exact absurd ((jsonLogData_request_id_iff now r).mp ⟨v, hv⟩) (by simp [h])
  · intro h v hv
    exact absurd ((jsonLogData_user_id_iff now r).mp ⟨v, hv⟩) (by simp [h])
  · intro h v hv
    exact absurd ((jsonLogData_duration_iff now r).mp ⟨v, hv⟩) (by simp [h])

/-- Witness for `c4_renderers_pure_and_total`. -/
theorem c4_renderers_pure_and_total_witness :
    (JSONFormatter.format "2026-10-12T00:00:00" wRec).2 = wRec ∧
    (ColoredConsoleFormatter.format "2026-10-12 00:00:00" wRec).2 = wRec ∧
    (∀ v, ("exception", v) ∉ jsonLogData "2026-10-12T00:00:00" wRec) ∧
    (∀ v, ("request_id", v) ∉ jsonLogData "2026-10-12T00:00:00" wRec) ∧
    (∀ v, ("user_id", v) ∉ jsonLogData "2026-10-12T00:00:00" wRec) ∧
    (∀ v, ("duration_ms", v) ∉ jsonLogData "2026-10-12T00:00:00" wRec) :=
  ⟨(c4_renderers_pure_and_total "2026-10-12T00:00:00" "2026-10-12 00:00:00" wRec).1,
   (c4_renderers_pure_and_total "2026-10-12T00:00:00" "2026-10-12 00:00:00" wRec).2.1,
   (c4_renderers_pure_and_total "2026-10-12T00:00:00" "2026-10-12 00:00:00" wRec).2.2.1 rfl,
   (c4_renderers_pure_and_total "2026-10-12T00:00:00" "2026-10-12 00:00:00" wRec).2.2.2.1 rfl,
   (c4_renderers_pure_and_total "2026-10-12T00:00:00" "2026-10-12 00:00:00" wRec).2.2.2.2.1 rfl,
   (c4_renderers_pure_and_total "2026-10-12T00:00:00" "2026-10-12 00:00:00" wRec).2.2.2.2.2 rfl⟩

/-- Hex digits below 16 round-trip through the digit table. -/
theorem hexVal_hexDigitChar : ∀ v, v < 16 → hexVal (hexDigitChar v) = some v := by
  decide

/-- Decimal digit characters are digits. -/
theorem digitChar_isDigit : ∀ d, d < 10 → (digitChar d).isDigit = true := by
  decide

/-- Decimal digit characters decode to their value. -/
theorem digitChar_toNat : ∀ d, d < 10 → (digitChar d).toNat - 48 = d := by
  decide

/-- Parsing an escaped string body recovers the original characters and
leaves the tail after the closing quote untouched. -/
theorem parseStringBody_escape (s rest : List Char) :
    parseStringBody (s.flatMap escChar ++ '"' :: rest) = some (s, rest) := by
  induction s with
  | nil =>
    unfold parseStringBody
    simp
  | cons c cs ih =>
    have hstep : (c :: cs).flatMap escChar ++ '"' :: rest
        = escChar c ++ (cs.flatMap escChar ++ '"' :: rest) := by
      simp
    rw [hstep]
    by_cases h1 : c = '"' ∨ c = '\\'
    · have hesc : escChar c = ['\\', c] := by
        simp [escChar, h1]
      rw [hesc]
      rcases h1 with rfl | rfl
      · rw [parseStringBody.eq_def]
        simp [ih]
      · rw [parseStringBody.eq_def]
        simp [ih]
    · push_neg at h1
      obtain ⟨hq, hb⟩ := h1
      by_cases h2 : c.toNat < 32
      · have hesc : escChar c = ['\\', 'u', '0', '0',
            hexDigitChar (c.toNat / 16), hexDigitChar (c.toNat % 16)] := by
          simp [escChar, hq, hb, h2]
        rw [hesc]
        have hhi := hexVal_hexDigitChar (c.toNat / 16) (by omega)
        have hlo := hexVal_hexDigitChar (c.toNat % 16) (by omega)
        have hv0 : hexVal '0' = some 0 := by decide
        rw [parseStringBody.eq_def]
        simp [hv0, hhi, hlo, ih]
        rw [show c.toNat / 16 * 16 + c.toNat % 16 = c.toNat from by omega]
        exact Char.ofNat_toNat c
      · have hesc : escChar c = [c] := by
          simp [escChar, hq, hb, h2]
        rw [hesc]
        rw [parseStringBody.eq_def]
        simp [hq, hb, ih]

/-- `takeDigits` consumes nothing when the input does not start with a
digit. -/
theorem takeDigits_no_digit (cs : List Char)
    (h : ∀ c ∈ cs.head?, c.isDigit = false) : takeDigits cs = ([], cs) := by
  cases cs with
  | nil => rfl
  | cons c cs => simp [takeDigits, h c rfl]

/-- `takeDigits` consumes exactly a rendered digit run, stopping at a
non-digit. -/
theorem takeDigits_digits (ds : List Nat) (rest : List Char)
    (hds : ∀ d ∈ ds, d < 10)
    (hrest : ∀ c ∈ rest.head?, c.isDigit = false) :
    takeDigits (ds.map digitChar ++ rest) = (ds, rest) := by
  induction ds with
  | nil => simpa using takeDigits_no_digit rest hrest
  | cons d ds ih =>
    have hd : d < 10 := hds d (by simp)
    simp [takeDigits, digitChar_isDigit d hd, digitChar_toNat d hd,
      ih (fun x hx => hds x (by simp [hx]))]

/-- Appending a digit multiplies the value by ten and adds it. -/
theorem digitsVal_append (xs : List Nat) (d : Nat) :
    digitsVal (xs ++ [d]) = 10 * digitsVal xs + d := by
  simp [digitsVal, List.foldl_append]
  omega

/-- All decimal digits of a number are below ten. -/
theorem natDigitsRev_lt (n : Nat) : ∀ d ∈ natDigitsRev n, d < 10 := by
  induction n using Nat.strong_induction_on with
  | _ n ih =>
    unfold natDigitsRev
    split
    · simp
    · rename_i h
      intro d hd
      rcases List.mem_cons.mp hd with rfl | hd
      · omega
      · exact ih (n / 10) (Nat.div_lt_self (Nat.pos_of_ne_zero h) (by omega)) d hd

/-- The big-endian digits of `n` denote `n`. -/
theorem digitsVal_natDigitsRev (n : Nat) :
    digitsVal ((natDigitsRev n).reverse) = n := by
  induction n using Nat.strong_induction_on with
  | _ n ih =>
    unfold natDigitsRev
    split
    · rename_i h
      simp [digitsVal, h]
    · rename_i h
      simp only [List.reverse_cons]
      rw [digitsVal_append,
        ih (n / 10) (Nat.div_lt_self (Nat.pos_of_ne_zero h) (by omega))]
      omega

/-- Parsing a rendered natural number recovers it, leaving a non-digit tail
untouched. -/
theorem parseNat_serializeNat (n : Nat) (rest : List Char)
    (hrest : ∀ c ∈ rest.head?, c.isDigit = false) :
    parseNat (serializeNat n ++ rest) = some (n, rest) := by
  by_cases h : n = 0
  · subst h
    have h0 : ('0' : Char).isDigit = true := by decide
    have h0v : ('0' : Char).toNat - 48 = 0 := by decide
    simp [serializeNat, parseNat, takeDigits, h0, h0v,
      takeDigits_no_digit rest hrest, digitsVal]
  · have hne : natDigitsRev n ≠ [] := by
      unfold natDigitsRev
      simp [h]
    have hds := takeDigits_digits ((natDigitsRev n).reverse) rest
      (fun d hd => natDigitsRev_lt n d (List.mem_reverse.mp hd)) hrest
    rw [List.map_reverse] at hds
    simp [serializeNat, h, parseNat, hds, hne, digitsVal_natDigitsRev]

/-- A rendered natural number starts with a digit character. -/
theorem serializeNat_head (n : Nat) :
    ∃ c cs, serializeNat n = c :: cs ∧ c.isDigit = true := by
  by_cases h : n = 0
  · exact ⟨'0', [], by simp [serializeNat, h], by decide⟩
  · have hne : natDigitsRev n ≠ [] := by
      unfold natDigitsRev
      simp [h]
    rcases hx : (natDigitsRev n).reverse with _ | ⟨d, ds⟩
    · exact absurd (by simpa using hx) hne
    · refine ⟨digitChar d, ds.map digitChar, by simp [serializeNat, h, hx], ?_⟩
      have hd : d < 10 := natDigitsRev_lt n d
        (List.mem_reverse.mp (hx ▸ List.mem_cons_self d ds))
      exact digitChar_isDigit d hd

/-- Digit characters are not a quote. -/
theorem isDigit_ne_quote (c : Char) (h : c.isDigit = true) : c ≠ '"' := by
  intro he
  subst he
  exact absurd h (by decide)

/-- Digit characters are not a minus sign. -/
theorem isDigit_ne_minus (c : Char) (h : c.isDigit = true) : c ≠ '-' := by
  intro he
  subst he
  exact absurd h (by decide)

/-- Folding the digit accumulator from `a` places `a` at the right power of
ten. -/
theorem digitsVal_foldl (ds : List Nat) :
    ∀ a, List.foldl (fun acc d => acc * 10 + d) a ds
      = a * 10 ^ ds.length + digitsVal ds := by
  induction ds with
  | nil =>
    intro a
    simp [digitsVal]
  | cons d ds ih =>
    intro a
    simp only [List.foldl_cons, List.length_cons]
    rw [ih (a * 10 + d)]
    have h2 : digitsVal (d :: ds) = d * 10 ^ ds.length + digitsVal ds := by
      show List.foldl (fun acc x => acc * 10 + x) (0 * 10 + d) ds
          = d * 10 ^ ds.length + digitsVal ds
      rw [show 0 * 10 + d = d from by ring]
      exact ih d
    rw [h2]
    ring

/-- Value of a digit-cons. -/
theorem digitsVal_cons (d : Nat) (ds : List Nat) :
    digitsVal (d :: ds) = d * 10 ^ ds.length + digitsVal ds := by
  show List.foldl (fun acc x => acc * 10 + x) (0 * 10 + d) ds
      = d * 10 ^ ds.length + digitsVal ds
  rw [show 0 * 10 + d = d from by ring]
  exact digitsVal_foldl ds d

/-- A padded digit block has exactly the requested length. -/
theorem padDigits_length (k : Nat) : ∀ m, (padDigits k m).length = k := by
  induction k with
  | zero =>
    intro m
    rfl
  | succ k ih =>
    intro m
    simp [padDigits, ih]

/-- Padded digits of `m < 10^k` are decimal digits. -/
theorem padDigits_lt (k : Nat) :
    ∀ m, m < 10 ^ k → ∀ d ∈ padDigits k m, d < 10 := by
  induction k with
  | zero =>
    intro m _ d hd
    simp [padDigits] at hd
  | succ k ih =>
    intro m hm d hd
    simp only [padDigits, List.mem_cons] at hd
    rcases hd with rfl | hd
    · rw [pow_succ] at hm
      exact Nat.div_lt_of_lt_mul hm
    · exact ih (m % 10 ^ k) (Nat.mod_lt _ (pow_pos (by omega) k)) d hd

/-- The padded digit block of `m < 10^k` denotes `m`. -/
theorem digitsVal_padDigits (k : Nat) :
    ∀ m, m < 10 ^ k → digitsVal (padDigits k m) = m := by
  induction k with
  | zero =>
    intro m hm
    simp only [pow_zero] at hm
    have hm0 : m = 0 := by omega
    simp [padDigits, digitsVal, hm0]
  | succ k ih =>
    intro m hm
    show digitsVal (m / 10 ^ k :: padDigits k (m % 10 ^ k)) = m
    rw [digitsVal_cons, padDigits_length,
      ih (m % 10 ^ k) (Nat.mod_lt _ (pow_pos (by omega) k)), Nat.mul_comm]
    exact Nat.div_add_mod m (10 ^ k)

/-- `strip p n` factors `n` as `p^multiplicity · cofactor`, the cofactor
nonzero and not divisible by `p`, for `1 < p` and `n ≠ 0`. -/
theorem strip_spec (p : Nat) (hp : 1 < p) :
    ∀ n, n ≠ 0 →
      n = p ^ (strip p n).1 * (strip p n).2 ∧
      ¬ p ∣ (strip p n).2 ∧ (strip p n).2 ≠ 0 := by
  intro n
  induction n using Nat.strong_induction_on with
  | _ n ih =>
    intro hn
    unfold strip
    split
    · rename_i h
      have hdvd : p ∣ n := Nat.dvd_of_mod_eq_zero h.2.2
      have hnp : n / p ≠ 0 := by
        have h1 := Nat.le_of_dvd (Nat.pos_of_ne_zero hn) hdvd
        have h2 := Nat.div_pos h1 (by omega)
        omega
      have hlt : n / p < n := Nat.div_lt_self (Nat.pos_of_ne_zero hn) hp
      obtain ⟨heq, hnd, hne⟩ := ih (n / p) hlt hnp
      refine ⟨?_, hnd, hne⟩
      simp only []
      rw [pow_succ]
      calc n = p * (n / p) := (Nat.mul_div_cancel' hdvd).symm
        _ = p * (p ^ (strip p (n / p)).1 * (strip p (n / p)).2) := by rw [← heq]
        _ = p ^ (strip p (n / p)).1 * p * (strip p (n / p)).2 := by ring
    · rename_i h
      have hmod : n % p ≠ 0 := by
        intro hm
        exact h ⟨hp, hn, hm⟩
      refine ⟨by simp, ?_, hn⟩
      intro hdvd
      obtain ⟨c, rfl⟩ := hdvd
      exact hmod (Nat.mul_mod_right p c)

/-- A denominator dividing some power of ten divides the power of ten given
by its 2- and 5-multiplicities. -/
theorem dvd_pow_decExp (den k : Nat) (hden : den ≠ 0) (hdvd : den ∣ 10 ^ k) :
    den ∣ 10 ^ decExp den := by
  obtain ⟨h2eq, h2nd, h2ne⟩ := strip_spec 2 (by omega) den hden
  obtain ⟨h5eq, h5nd, h5ne⟩ := strip_spec 5 (by omega) (strip 2 den).2 h2ne
  have hde : decExp den = (strip 2 den).1 + (strip 5 (strip 2 den).2).1 := rfl
  set a := (strip 2 den).1 with ha
  set r := (strip 2 den).2 with hr
  set b := (strip 5 r).1 with hb
  set s := (strip 5 r).2 with hs
  have hsr : s ∣ r := ⟨5 ^ b, by rw [h5eq]; ring⟩
  have hrden : r ∣ den := ⟨2 ^ a, by rw [h2eq]; ring⟩
  have hsdvd : s ∣ 10 ^ k := (hsr.trans hrden).trans hdvd
  have hs2 : ¬ 2 ∣ s := fun hd => h2nd (hd.trans hsr)
  have hc2 : Nat.Coprime s 2 :=
    ((Nat.Prime.coprime_iff_not_dvd Nat.prime_two).mpr hs2).symm
  have hc5 : Nat.Coprime s 5 :=
    ((Nat.Prime.coprime_iff_not_dvd (by norm_num)).mpr h5nd).symm
  have hc10 : Nat.Coprime s 10 := by
    rw [show (10 : ℕ) = 2 * 5 from rfl]
    exact Nat.Coprime.mul_right hc2 hc5
  have hs1 : s = 1 := by
    have hcp := Nat.Coprime.pow_right k hc10
    have hgcd : Nat.gcd s (10 ^ k) = s := Nat.gcd_eq_left hsdvd
    unfold Nat.Coprime at hcp
    rw [hgcd] at hcp
    exact hcp
  have hden_eq : den = 2 ^ a * 5 ^ b := by
    rw [h2eq, h5eq, hs1, mul_one]
  rw [hde, hden_eq]
  have h10 : (10 : ℕ) ^ (a + b) = 2 ^ (a + b) * 5 ^ (a + b) := by
    rw [show (10 : ℕ) = 2 * 5 from rfl, mul_pow]
  rw [h10]
  exact mul_dvd_mul (pow_dvd_pow 2 (by omega)) (pow_dvd_pow 5 (by omega))

/-- A nonnegative rational with a finite decimal expansion is cleared to a
natural number by `10 ^ (max (decExp den) 1)`. -/
theorem jnum_exact (q : ℚ) (hq0 : 0 ≤ q)
    (h : ∃ (m : ℤ) (k : ℕ), q * 10 ^ k = (m : ℚ)) :
    ∃ m : ℕ, q * 10 ^ (max (decExp q.den) 1) = (m : ℚ) := by
  obtain ⟨m, k, hmk⟩ := h
  have hden0 : ((q.den : ℚ)) ≠ 0 := by
    exact_mod_cast q.den_nz
  have h1 : (q.num : ℚ) * 10 ^ k = (m : ℚ) * q.den := by
    calc (q.num : ℚ) * 10 ^ k
        = ((q.num : ℚ) / q.den) * q.den * 10 ^ k := by field_simp
      _ = (q * 10 ^ k) * q.den := by rw [Rat.num_div_den]; ring
      _ = (m : ℚ) * q.den := by rw [hmk]
  have hint : q.num * 10 ^ k = m * q.den := by exact_mod_cast h1
  have hdvd_int : (q.den : ℤ) ∣ q.num * 10 ^ k := ⟨m, by rw [hint]; ring⟩
  have hdvd_nat : q.den ∣ q.num.natAbs * 10 ^ k := by
    have h2 := Int.natAbs_dvd_natAbs.mpr hdvd_int
    simpa [Int.natAbs_mul, Int.natAbs_pow] using h2
  have hdvd10 : q.den ∣ 10 ^ k :=
    Nat.Coprime.dvd_of_dvd_mul_left q.reduced.symm hdvd_nat
  have he : q.den ∣ 10 ^ (max (decExp q.den) 1) :=
    dvd_trans (dvd_pow_decExp q.den k q.den_nz hdvd10)
      (pow_dvd_pow 10 (le_max_left _ _))
  obtain ⟨c, hc⟩ := he
  refine ⟨q.num.toNat * c, ?_⟩
  have hnum0 : 0 ≤ q.num := Rat.num_nonneg.mpr hq0
  calc q * 10 ^ (max (decExp q.den) 1)
      = ((q.num : ℚ) / q.den) * 10 ^ (max (decExp q.den) 1) := by
        rw [Rat.num_div_den]
    _ = ((q.num : ℚ) / q.den) * ((10 ^ (max (decExp q.den) 1) : ℕ) : ℚ) := by
        push_cast
        ring
    _ = ((q.num : ℚ) / q.den) * ((q.den * c : ℕ) : ℚ) := by rw [← hc]
    _ = (q.num : ℚ) * c := by
        push_cast
        field_simp
        ring
    _ = ((q.num.toNat * c : ℕ) : ℚ) := by
        have htn : ((q.num.toNat : ℚ)) = ((q.num : ℚ)) := by
          exact_mod_cast Int.toNat_of_nonneg hnum0
        push_cast
        rw [htn]

/-- Decomposition of the decimal rendering of a nonnegative exact rational:
the integer-part digits, the point, the fractional digit block, and the
facts the parser needs about each piece. -/
theorem serializeJNumAbs_parts (q : ℚ) (rest : List Char)
    (hexact : ∃ m : ℕ, q * 10 ^ (max (decExp q.den) 1) = (m : ℚ))
    (hrest : ∀ c ∈ rest.head?, c.isDigit = false) :
    ∃ (m : ℕ) (e : Nat),
      serializeJNumAbs q
        = serializeNat (m / 10 ^ e)
          ++ '.' :: (padDigits e (m % 10 ^ e)).map digitChar ∧
      parseNat (serializeJNumAbs q ++ rest)
        = some (m / 10 ^ e,
            '.' :: ((padDigits e (m % 10 ^ e)).map digitChar ++ rest)) ∧
      takeDigits ((padDigits e (m % 10 ^ e)).map digitChar ++ rest)
        = (padDigits e (m % 10 ^ e), rest) ∧
      padDigits e (m % 10 ^ e) ≠ [] ∧
      ((m / 10 ^ e : ℕ) : ℚ) + fracVal (padDigits e (m % 10 ^ e)) = q := by
  obtain ⟨m, hm⟩ := hexact
  set e := max (decExp q.den) 1 with he
  have he1 : 1 ≤ e := le_max_right _ _
  have hfloor : (⌊q * 10 ^ e⌋).toNat = m := by
    rw [hm]
    simp
  have hser : serializeJNumAbs q
      = serializeNat (m / 10 ^ e)
        ++ '.' :: (padDigits e (m % 10 ^ e)).map digitChar := by
    simp only [serializeJNumAbs]
    rw [← he, hfloor]
  have hmod_lt : m % 10 ^ e < 10 ^ e := Nat.mod_lt _ (pow_pos (by omega) e)
  have hlen : (padDigits e (m % 10 ^ e)).length = e := padDigits_length e _
  have hne : padDigits e (m % 10 ^ e) ≠ [] := by
    intro hnil
    rw [hnil] at hlen
    simp at hlen
    omega
  have hlt := padDigits_lt e (m % 10 ^ e) hmod_lt
  have htd := takeDigits_digits (padDigits e (m % 10 ^ e)) rest hlt hrest
  have hpn : parseNat (serializeJNumAbs q ++ rest)
      = some (m / 10 ^ e,
          '.' :: ((padDigits e (m % 10 ^ e)).map digitChar ++ rest)) := by
    rw [hser, List.append_assoc, List.cons_append]
    exact parseNat_serializeNat (m / 10 ^ e)
      ('.' :: ((padDigits e (m % 10 ^ e)).map digitChar ++ rest))
      (by
        intro x hx
        simp at hx
        subst hx
        decide)
  have hval : ((m / 10 ^ e : ℕ) : ℚ) + fracVal (padDigits e (m % 10 ^ e)) = q := by
    rw [fracVal, hlen, digitsVal_padDigits e _ hmod_lt]
    have hq : q = (m : ℚ) / 10 ^ e := by
      rw [eq_div_iff (by positivity)]
      exact hm
    rw [hq]
    have hnat : 10 ^ e * (m / 10 ^ e) + m % 10 ^ e = m := Nat.div_add_mod m (10 ^ e)
    have hcast : ((10 ^ e * (m / 10 ^ e) + m % 10 ^ e : ℕ) : ℚ) = (m : ℚ) := by
      rw [hnat]
    push_cast at hcast
    field_simp
    linarith
  exact ⟨m, e, hser, hpn, htd, hne, hval⟩

/-- Parsing a rendered scalar value recovers it, leaving the tail untouched,
whenever the tail does not begin with a digit or a dot and any `jnum` has a
finite decimal expansion. -/
theorem parseJVal_serialize (v : JVal) (rest : List Char)
    (hrest : ∀ c ∈ rest.head?, c.isDigit = false ∧ c ≠ '.')
    (hv : JNumOK v) :
    parseJVal (serializeJVal v ++ rest) = some (v, rest) := by
  cases v with
  | jstr s =>
    show parseJVal (('"' :: escapeString s ++ ['"']) ++ rest) = _
    have : ('"' :: escapeString s ++ ['"']) ++ rest
        = '"' :: (s.data.flatMap escChar ++ '"' :: rest) := by
      simp [escapeString]
    rw [this]
    unfold parseJVal
    simp [parseStringBody_escape]
  | jnat n =>
    show parseJVal (serializeNat n ++ rest) = _
    obtain ⟨c, cs2, hser, hdig⟩ := serializeNat_head n
    have hqne : c ≠ '"' := isDigit_ne_quote c hdig
    have hmne : c ≠ '-' := isDigit_ne_minus c hdig
    have hpn := parseNat_serializeNat n rest (fun x hx => (hrest x hx).1)
    rw [hser] at hpn ⊢
    simp only [List.cons_append, List.append_nil] at hpn ⊢
    cases rest with
    | nil =>
      simp only [List.append_nil] at hpn
      unfold parseJVal
      simp [hqne, hmne, hpn]
    | cons r rest2 =>
      have hr := hrest r rfl
      unfold parseJVal
      simp [hqne, hmne, hpn, hr.2]
  | jnum q =>
    rcases lt_or_le q 0 with hneg | hpos
    · have hq0 : 0 ≤ -q := by linarith
      have hex : ∃ m : ℕ, -q * 10 ^ (max (decExp (-q).den) 1) = (m : ℚ) := by
        apply jnum_exact (-q) hq0
        obtain ⟨m, k, hmk⟩ := hv
        exact ⟨-m, k, by push_cast; linarith⟩
      obtain ⟨m, e, hser, hpn, htd, hne, hval⟩ :=
        serializeJNumAbs_parts (-q) rest hex (fun c hc => (hrest c hc).1)
      have hserJ : serializeJNum q = '-' :: serializeJNumAbs (-q) := by
        simp [serializeJNum, hneg]
      show parseJVal (serializeJNum q ++ rest) = _
      rw [hserJ]
      simp only [List.cons_append]
      unfold parseJVal
      simp [hpn, htd, hne]
      linarith [hval]
    · have hex : ∃ m : ℕ, q * 10 ^ (max (decExp q.den) 1) = (m : ℚ) :=
        jnum_exact q hpos hv
      obtain ⟨m, e, hser, hpn, htd, hne, hval⟩ :=
        serializeJNumAbs_parts q rest hex (fun c hc => (hrest c hc).1)
      have hserJ : serializeJNum q = serializeJNumAbs q := by
        simp [serializeJNum, not_lt.mpr hpos]
      show parseJVal (serializeJNum q ++ rest) = _
      rw [hserJ]
      obtain ⟨c, cs2, hserN, hdig⟩ := serializeNat_head (m / 10 ^ e)
      have hqne : c ≠ '"' := isDigit_ne_quote c hdig
      have hmne : c ≠ '-' := isDigit_ne_minus c hdig
      rw [hser] at hpn ⊢
      rw [hserN] at hpn ⊢
      simp only [List.cons_append, List.append_assoc] at hpn ⊢
      unfold parseJVal
      simp [hqne, hmne, hpn, htd, hne]
      exact hval

/-- Parsing a rendered object member recovers it. -/
theorem parseField_serialize (kv : String × JVal) (rest : List Char)
    (hrest : ∀ c ∈ rest.head?, c.isDigit = false ∧ c ≠ '.')
    (hv : JNumOK kv.2) :
    parseField (serializeField kv ++ rest) = some (kv, rest) := by
  obtain ⟨k, v⟩ := kv
  show parseField ((serializeStr k ++ ':' :: serializeJVal v) ++ rest) = _
  have hform : (serializeStr k ++ ':' :: serializeJVal v) ++ rest
      = '"' :: (k.data.flatMap escChar ++ '"' :: (':' :: (serializeJVal v ++ rest))) := by
    simp [serializeStr, escapeString]
  rw [hform]
  have hmk : String.mk k.data = k := rfl
  unfold parseField
  simp [parseStringBody_escape, parseJVal_serialize v rest hrest hv, hmk]

/-- A member list is at most as long as its rendering. -/
theorem joinFields_length (fields : List (String × JVal)) :
    fields.length ≤ (joinFields fields).length := by
  induction fields with
  | nil => simp [joinFields]
  | cons kv fields ih =>
    cases fields with
    | nil =>
      simp [joinFields, serializeField, serializeStr]
    | cons kv2 fields2 =>
      have h1 : 1 ≤ (serializeField kv).length := by
        simp [serializeField, serializeStr]
      simp only [joinFields, List.length_append, List.length_cons] at ih ⊢
      omega

/-- Parsing a rendered nonempty member list up to the closing brace recovers
the members, given enough fuel. -/
theorem parseFieldsLoop_round :
    ∀ (fields : List (String × JVal)) (fuel : Nat) (rest : List Char),
      fields ≠ [] → fields.length ≤ fuel →
      (∀ kv ∈ fields, JNumOK kv.2) →
      parseFieldsLoop fuel (joinFields fields ++ '\x7d' :: rest)
        = some (fields, rest) := by
  intro fields
  induction fields with
  | nil =>
    intro fuel rest hne _ _
    exact absurd rfl hne
  | cons kv fields ih =>
    intro fuel rest _ hfuel hv
    cases fuel with
    | zero => simp at hfuel
    | succ fuel =>
      cases fields with
      | nil =>
        have hpf := parseField_serialize kv ('\x7d' :: rest)
          (by
            intro c hc
            simp at hc
            subst hc
            exact ⟨by decide, by decide⟩)
          (hv kv (by simp))
        unfold parseFieldsLoop
        simp only [joinFields]
        simp [hpf]
      | cons kv2 fields2 =>
        have hihyp := ih fuel rest (by simp)
          (by simp at hfuel ⊢; omega)
          (fun x hx => hv x (by simp [hx]))
        have hpf := parseField_serialize kv
          (',' :: (joinFields (kv2 :: fields2) ++ '\x7d' :: rest))
          (by
            intro c hc
            simp at hc
            subst hc
            exact ⟨by decide, by decide⟩)
          (hv kv (by simp))
        have hform : joinFields (kv :: kv2 :: fields2) ++ '\x7d' :: rest
            = serializeField kv
              ++ (',' :: (joinFields (kv2 :: fields2) ++ '\x7d' :: rest)) := by
          simp [joinFields]
        rw [hform]
        unfold parseFieldsLoop
        simp [hpf, hihyp]

/-- Parsing a dumped flat object recovers exactly its members. -/
theorem parseJson_dumps (fields : List (String × JVal))
    (hv : ∀ kv ∈ fields, JNumOK kv.2) :
    parseJson (json_dumps fields) = some (fields, []) := by
  cases fields with
  | nil =>
    unfold json_dumps joinFields parseJson
    simp
  | cons kv fields2 =>
    have hjoin : ∃ tail, joinFields (kv :: fields2) = '"' :: tail := by
      cases fields2 <;> simp [joinFields, serializeField, serializeStr]
    obtain ⟨tail, htail⟩ := hjoin
    unfold json_dumps parseJson
    rw [htail]
    simp only [List.cons_append]
    simp
    rw [show ('"' : Char) :: (tail ++ ['\x7d'])
        = joinFields (kv :: fields2) ++ '\x7d' :: [] from by rw [htail]; simp]
    refine parseFieldsLoop_round (kv :: fields2) _ [] (by simp) ?_ hv
    have h1 := joinFields_length (kv :: fields2)
    rw [htail] at h1
    simp at h1 ⊢
    omega

/-- Every value in the rendered object satisfies the `jnum` representability
side condition when the record's duration does. -/
theorem mem_optField {α : Type} {key : String} {f : α → JVal} {o : Option α}
    {kv : String × JVal} (h : kv ∈ optField key f o) :
    ∃ v, o = some v ∧ kv = (key, f v) := by
  cases o with
  | none => simp [optField] at h
  | some v =>
    simp [optField] at h
    exact ⟨v, rfl, h⟩

/-- Every value in the rendered object satisfies the `jnum` representability
side condition when the record's duration does. -/
theorem jsonLogData_JNumOK (now : String) (r : LogRecord)
    (hdur : ∀ q ∈ r.duration_ms, ∃ (m : ℤ) (k : ℕ), q * 10 ^ k = (m : ℚ)) :
    ∀ kv ∈ jsonLogData now r, JNumOK kv.2 := by
  intro kv hkv
  simp only [jsonLogData] at hkv
  rcases List.mem_append.mp hkv with h1 | hd
  · rcases List.mem_append.mp h1 with h2 | hu
    · rcases List.mem_append.mp h2 with h3 | hr2
      · rcases List.mem_append.mp h3 with hb | he
        · simp at hb
          rcases hb with rfl | rfl | rfl | rfl | rfl | rfl | rfl <;> trivial
        · obtain ⟨v, _, rfl⟩ := mem_optField he
          trivial
      · obtain ⟨v, _, rfl⟩ := mem_optField hr2
        trivial
    · obtain ⟨v, _, rfl⟩ := mem_optField hu
      trivial
  · obtain ⟨q, hq, rfl⟩ := mem_optField hd
    exact hdur q (by rw [hq]; rfl)

/-- C8: the string the JSON renderer produces parses back to exactly the
object it rendered; that object always contains `timestamp`, `level`,
`logger`, `message`, `module`, `function` and `line`, and contains each of
`exception`, `request_id`, `user_id`, `duration_ms` if and only if the
corresponding information is present on the source record — absence of
optional context yields absence of the field (the value type has no null).
The side condition asks the duration to have a finite decimal expansion
(some power of ten clears it to an integer). Every Python float value has
one, so every record the program can produce satisfies it — the rounded
terminal durations and the unrounded exception-path duration alike; it
excludes only rationals such as 1/3 that no float equals, an artifact of ℚ
being strictly larger than the floats it stands in for. -/
theorem c8_json_round_trip (now : String) (r : LogRecord)
    (hdur : ∀ q ∈ r.duration_ms, ∃ (m : ℤ) (k : ℕ), q * 10 ^ k = (m : ℚ)) :
    parseJson ((JSONFormatter.format now r).1.data)
      = some (jsonLogData now r, []) ∧
    (("timestamp", JVal.jstr now) ∈ jsonLogData now r ∧
     ("level", JVal.jstr r.levelname) ∈ jsonLogData now r ∧
     ("logger", JVal.jstr r.name) ∈ jsonLogData now r ∧
     ("message", JVal.jstr r.message) ∈ jsonLogData now r ∧
     ("module", JVal.jstr r.module) ∈ jsonLogData now r ∧
     ("function", JVal.jstr r.funcName) ∈ jsonLogData now r ∧
     ("line", JVal.jnat r.lineno) ∈ jsonLogData now r) ∧
    ((∃ v, ("exception", v) ∈ jsonLogData now r) ↔ r.exc_info ≠ none) ∧
    ((∃ v, ("request_id", v) ∈ jsonLogData now r) ↔ r.request_id ≠ none) ∧
    ((∃ v, ("user_id", v) ∈ jsonLogData now r) ↔ r.user_id ≠ none) ∧
    ((∃ v, ("duration_ms", v) ∈ jsonLogData now r) ↔ r.duration_ms ≠ none) := by
  refine ⟨?_, jsonLogData_required now r, jsonLogData_exception_iff now r,
    jsonLogData_request_id_iff now r, jsonLogData_user_id_iff now r,
    jsonLogData_duration_iff now r⟩
  have hdata : (JSONFormatter.format now r).1.data
      = json_dumps (jsonLogData now r) := rfl
  rw [hdata]
  exact parseJson_dumps _ (jsonLogData_JNumOK now r hdur)

/-- Witness for `c8_json_round_trip`. -/
theorem c8_json_round_trip_witness :
    (∀ q ∈ wRec.duration_ms, ∃ (m : ℤ) (k : ℕ), q * 10 ^ k = (m : ℚ)) ∧
    parseJson ((JSONFormatter.format "2026-10-12T00:00:00" wRec).1.data)
      = some (jsonLogData "2026-10-12T00:00:00" wRec, []) :=
  ⟨by simp [wRec],
   (c8_json_round_trip "2026-10-12T00:00:00" wRec (by simp [wRec])).1⟩

/-- C5 is refuted as stated: the severity name `"basic_format"` upper-cases
to `BASIC_FORMAT`, which IS an attribute of the `logging` module — a format
string, not a level — so the `getattr` default of INFO is not taken, and
`root_logger.setLevel` then raises `ValueError`: the call fails instead of
soft-failing to INFO. -/
theorem c5_basic_format_cex :
    setup_logging { log_level := "basic_format" } initialRoot
      = .error ("Unknown level: %(levelname)s:%(name)s:%(message)s") ∧
    ¬ ∃ st', setup_logging { log_level := "basic_format" } initialRoot
      = .ok st' := by
  refine ⟨by decide, ?_⟩
  rintro ⟨st', h⟩
  rw [show setup_logging { log_level := "basic_format" } initialRoot
      = .error ("Unknown level: %(levelname)s:%(name)s:%(message)s")
      from by decide] at h
  exact absurd h (by simp)

set_option maxHeartbeats 1000000 in
/-- C5 (amended): the upper-cased severity name is looked up among the
`logging` module's attributes — DEBUG/INFO/WARN/WARNING/ERROR/FATAL/CRITICAL
and NOTSET resolve to their numeric levels, and a name that matches no
attribute soft-fails to INFO (20) without the call failing; the exceptions
are the two non-level attributes an upper-cased name can hit: BASIC_FORMAT
(a format string; `setLevel` raises `ValueError`) and `_STYLES` (a dict;
`setLevel` raises `TypeError`) — either makes the call fail. -/
theorem c5_severity_resolution (p : SetupParams) (root : RootLoggerState) :
    (∀ n, getattrLogging (pyUpper p.log_level) = some (.level n) →
      ∃ st', setup_logging p root = .ok st' ∧ st'.level = n) ∧
    (getattrLogging (pyUpper p.log_level) = none →
      ∃ st', setup_logging p root = .ok st' ∧ st'.level = 20) ∧
    (∀ s, getattrLogging (pyUpper p.log_level) = some (.str s) →
      setup_logging p root = .error ("Unknown level: " ++ s)) ∧
    (getattrLogging (pyUpper p.log_level) = some .stylesDict →
      setup_logging p root
        = .error "Level not an integer or a valid string") := by
  refine ⟨?_, ?_, ?_, ?_⟩
  · intro n hn
    unfold setup_logging
    rw [hn]
    by_cases hf : p.enable_file_logs <;> simp [checkLevel, hf]
  · intro hn
    unfold setup_logging
    rw [hn]
    by_cases hf : p.enable_file_logs <;> simp [checkLevel, hf]
  · intro s hs
    have hsval : s = "%(levelname)s:%(name)s:%(message)s" := by
      unfold getattrLogging at hs
      split_ifs at hs <;> simp at hs <;> exact hs.symm
    subst hsval
    unfold setup_logging
    rw [hs]
    simp [checkLevel, nameToLevel]
  · intro hs
    unfold setup_logging
    rw [hs]
    simp [checkLevel]

/-- Witness for `c5_severity_resolution`: the name `"warn"` resolves to the
module attribute WARN = 30 (initialization succeeds with that level). -/
theorem c5_severity_resolution_witness :
    (∀ n, getattrLogging (pyUpper "warn") = some (.level n) →
      ∃ st', setup_logging { log_level := "warn" } initialRoot = .ok st'
        ∧ st'.level = n) ∧
    (getattrLogging (pyUpper "warn") = none →
      ∃ st', setup_logging { log_level := "warn" } initialRoot = .ok st'
        ∧ st'.level = 20) ∧
    (∀ s, getattrLogging (pyUpper "warn") = some (.str s) →
      setup_logging { log_level := "warn" } initialRoot
        = .error ("Unknown level: " ++ s)) ∧
    (getattrLogging (pyUpper "warn") = some .stylesDict →
      setup_logging { log_level := "warn" } initialRoot
        = .error "Level not an integer or a valid string") :=
  c5_severity_resolution { log_level := "warn" } initialRoot

/-- C9: re-initialization is destructive, not additive — the outcome of a
second `setup_logging` call is independent of whatever state the first call
left (the handler list is cleared and rebuilt from the second call's
parameters alone), and the resulting sink set is exactly the one the second
call's parameters imply: three handlers (console, general file, error file)
with file output enabled, one (console) without. -/
theorem c9_reinit_destructive (p q : SetupParams) (st st₁ : RootLoggerState)
    (hfirst : setup_logging p st = .ok st₁) :
    setup_logging q st₁ = setup_logging q st ∧
    (∀ st₂, setup_logging q st₁ = .ok st₂ →
      st₂.handlers.length = if q.enable_file_logs then 3 else 1) := by
  refine ⟨rfl, ?_⟩
  intro st₂ h
  unfold setup_logging at h
  rcases hc : checkLevel ((getattrLogging (pyUpper q.log_level)).getD (.level 20))
    with e | lvl
  · simp only [hc] at h
    simp at h
  · simp only [hc] at h
    by_cases hf : q.enable_file_logs <;> simp [hf] at h <;> simp [← h, hf]

/-- Witness for `c9_reinit_destructive`: a first call with file logging
disabled, then a second call with the default parameters and level
`"warning"`. -/
theorem c9_reinit_destructive_witness :
    setup_logging { log_level := "warning" }
        { level := 20
          handlers := [{ kind := .consoleStdout, level := 20
                         formatter := .colored
                           "%(asctime)s - %(name)s - %(levelname)s - %(message)s"
                           "%Y-%m-%d %H:%M:%S" }]
          uvicorn_access_level := 30
          sqlalchemy_engine_level := 30 }
      = setup_logging { log_level := "warning" } initialRoot ∧
    (∀ st₂, setup_logging { log_level := "warning" }
        { level := 20
          handlers := [{ kind := .consoleStdout, level := 20
                         formatter := .colored
                           "%(asctime)s - %(name)s - %(levelname)s - %(message)s"
                           "%Y-%m-%d %H:%M:%S" }]
          uvicorn_access_level := 30
          sqlalchemy_engine_level := 30 }
      = .ok st₂ → st₂.handlers.length = 3) :=
  c9_reinit_destructive { enable_file_logs := false } { log_level := "warning" }
    initialRoot
    { level := 20
      handlers := [{ kind := .consoleStdout, level := 20
                     formatter := .colored
                       "%(asctime)s - %(name)s - %(levelname)s - %(message)s"
                       "%Y-%m-%d %H:%M:%S" }]
      uvicorn_access_level := 30
      sqlalchemy_engine_level := 30 }
    (by decide)
